import Mathlib

/-!
Verification of the `tagrtol` subdomain-takeover link scanner
(`src/tagrtol.go`).

The Go program is shallowly embedded as pure Lean functions.  The
network is modelled as a deterministic oracle `net : Request → NetResult`
passed to every prober; a transport-level failure (the `err != nil`
branch after an HTTP call) is `NetResult.failure`, while a received
response carries its numeric status code and body text.  A Go function
that can panic is embedded with result type `Option _`, `none` standing
for the panic.  Strings are handled char-by-char via `String.data`,
mirroring Go's byte-oriented `strings` package on the ASCII inputs the
scanner deals with.
-/

namespace Tagrtol

/-- An HTTP response as the scanner sees it: numeric status and body text. -/
structure HTTPResponse where
  statusCode : Nat
  body : String
deriving DecidableEq

/-- Outcome of one outbound request: transport failure (`err != nil`) or a
response. -/
inductive NetResult where
  | failure
  | success (resp : HTTPResponse)
deriving DecidableEq

/-- An outbound HTTP request, with the only header fields the program ever
sets (`User-Agent` and `Authorization`, cf. `githubAPIRequest`). -/
structure Request where
  method : String
  url : String
  userAgent : Option String
  authorization : Option String
deriving DecidableEq

/-- `httpClient.Get(u)`: a plain GET with no extra headers, answered by the
network oracle `net`. -/
def httpGet (net : Request → NetResult) (u : String) : NetResult :=
  net { method := "GET", url := u, userAgent := none, authorization := none }

/-- Go `type Result struct { Type; Status; URL; SourcePage string }`
(src/tagrtol.go:18-23).  `Type` is a reserved word in Lean, hence `Type'`. -/
structure Result where
  Type' : String
  Status : String
  URL : String
  SourcePage : String
deriving DecidableEq

/-! ### Go `strings` package primitives -/

/-- Core of `strings.Contains`: does `pat` occur as a contiguous run in
`l`?  (Go's `strings.Contains(s, "")` is `true`, matched by the base
case.) -/
def listContains : List Char → List Char → Bool
  | l@(_ :: xs), pat => pat.isPrefixOf l || listContains xs pat
  | [], pat => pat.isEmpty

/-- `strings.Contains(s, pat)`. -/
def strContains (s pat : String) : Bool :=
  listContains s.data pat.data

/-- `strings.Trim(s, "/")`: drop leading and trailing slashes. -/
def goTrimSlash (s : String) : String :=
  String.mk (((s.data.dropWhile (· == '/')).reverse.dropWhile (· == '/')).reverse)

/-- Core of `strings.Split(s, "/")` over char lists.  Always returns a
nonempty list; `splitOnSlash [] = [[]]` matches Go's
`strings.Split("", "/") = [""]`. -/
def splitOnSlash : List Char → List (List Char)
  | [] => [[]]
  | x :: xs =>
    let r := splitOnSlash xs
    if x == '/' then [] :: r
    else
      match r with
      | [] => [[x]]
      | h :: t => (x :: h) :: t

/-- `strings.Split(s, "/")`. -/
def goSplit (s : String) : List String :=
  (splitOnSlash s.data).map String.mk

/-! ### Model of `net/url.Parse`

Only the `Path` field is ever read by the program (`checkGitHub`,
`checkChromeExtension`), so the model tracks `Host` and the unescaped
`Path` together with exactly when `Parse` errors, following Go's
`Parse`/`parse`/`getScheme`/`parseAuthority`/`parseHost`/`unescape`
step by step: control characters in the pre-fragment part, a `:` at
position 0, a `:` in the first segment of a rootless schemeless URL,
invalid host ports, bytes and escapes, invalid userinfo, and invalid
percent-escapes in the path or in a non-empty fragment are errors
(`none`); an opaque `scheme:rest` URL (no `//`) has `Path = ""`.  The
zone-identifier refinements inside bracketed IPv6 hosts are the one
simplification (the scanner's links carry name hosts).  On error the
model returns `none` — the Go caller that ignores the error then holds a
nil pointer. -/

/-- ASCII control characters, rejected outright by `url.Parse`. -/
def isCtl (c : Char) : Bool :=
  c.toNat < 0x20 || c.toNat == 0x7f

/-- Hex digit test used by percent-escape validation. -/
def isHexDigitChar (c : Char) : Bool :=
  c.isDigit || ('a' ≤ c && c ≤ 'f') || ('A' ≤ c && c ≤ 'F')

/-- Numeric value of a hex digit. -/
def hexVal (c : Char) : Nat :=
  if c.isDigit then c.toNat - '0'.toNat
  else if 'a' ≤ c && c ≤ 'f' then c.toNat - 'a'.toNat + 10
  else c.toNat - 'A'.toNat + 10

/-- Percent-decoding of a raw path, as `url.Parse` performs when it fills
in `URL.Path`; `none` on a malformed escape (Go's `EscapeError`). -/
def pctDecode : List Char → Option (List Char)
  | [] => some []
  | '%' :: a :: b :: rest =>
    if isHexDigitChar a && isHexDigitChar b then
      (pctDecode rest).map (fun r => Char.ofNat (16 * hexVal a + hexVal b) :: r)
    else none
  | ['%'] => none
  | ['%', _] =>
    none
  | c :: rest => (pctDecode rest).map (fun r => c :: r)

/-- Go `getScheme`: scan for `scheme:`.  A scheme is an ASCII letter
followed by letters, digits, `+`, `-`, `.` up to a `:`.  A digit or
`+ - .` at position 0, or any other character anywhere, means the string
has no scheme and is returned whole; a `:` at position 0 is the
"missing protocol scheme" error (`none`). -/
def getSchemeAux (orig : List Char) : List Char → List Char → Bool →
    Option (List Char × List Char)
  | [], _, _ => some ([], orig)
  | c :: rest, acc, atStart =>
    if ('a' ≤ c && c ≤ 'z') || ('A' ≤ c && c ≤ 'Z') then
      getSchemeAux orig rest (c :: acc) false
    else if ('0' ≤ c && c ≤ '9') || c == '+' || c == '-' || c == '.' then
      if atStart then some ([], orig) else getSchemeAux orig rest (c :: acc) false
    else if c == ':' then
      if atStart then none else some (acc.reverse, rest)
    else some ([], orig)

/-- Go `validOptionalPort`: empty, or `:` followed by digits only. -/
def validOptionalPort : List Char → Bool
  | [] => true
  | ':' :: rest => rest.all (fun c => '0' ≤ c && c ≤ '9')
  | _ => false

/-- Index of the last occurrence of `c`, as Go `strings.LastIndex` for a
one-byte pattern. -/
def lastIndexOf (c : Char) : List Char → Option Nat
  | [] => none
  | x :: xs =>
    match lastIndexOf c xs with
    | some i => some (i + 1)
    | none => if x == c then some 0 else none

/-- Raw bytes Go's `shouldEscape(_, encodeHost)` permits unescaped in a
host: alphanumerics, the RFC 3986 marks, and the sub-delims plus
`: [ ] < > "`. -/
def isHostByteAllowed (c : Char) : Bool :=
  c.isAlphanum || c == '-' || c == '_' || c == '.' || c == '~' ||
  c == '!' || c == '$' || c == '&' || c == '\x27' || c == '(' || c == ')' ||
  c == '*' || c == '+' || c == ',' || c == ';' || c == '=' || c == ':' ||
  c == '[' || c == ']' || c == '<' || c == '>' || c == '"'

/-- Go `unescape(host, encodeHost)` success: percent-escapes must be two
hex digits and may encode only non-ASCII bytes (value ≥ 0x80) apart from
the literal `%25`, and raw ASCII bytes must be in the allowed host set. -/
def hostEscapesOK : List Char → Bool
  | [] => true
  | '%' :: a :: b :: rest =>
    isHexDigitChar a && isHexDigitChar b &&
      (decide (8 ≤ hexVal a) || (a == '2' && b == '5')) && hostEscapesOK rest
  | ['%'] => false
  | ['%', _] => false
  | c :: rest => (decide (0x80 ≤ c.toNat) || isHostByteAllowed c) && hostEscapesOK rest

/-- Go `parseHost` success: a bracketed host needs its `]` and a valid
optional `:port` after it, an unbracketed host with a `:` needs digits
after the last one, and the host bytes/escapes must pass `encodeHost`
unescaping. -/
def parseHostOK (host : List Char) : Bool :=
  (match host with
    | '[' :: _ =>
      match lastIndexOf ']' host with
      | none => false
      | some i => validOptionalPort (host.drop (i + 1))
    | _ =>
      match lastIndexOf ':' host with
      | none => true
      | some i => validOptionalPort (host.drop i)) &&
  hostEscapesOK host

/-- Characters Go `validUserinfo` accepts (anything else, non-ASCII runes
included, is the "invalid userinfo" error). -/
def isUserinfoChar (c : Char) : Bool :=
  c.isAlphanum || c == '-' || c == '.' || c == '_' || c == ':' || c == '~' ||
  c == '!' || c == '$' || c == '&' || c == '\x27' || c == '(' || c == ')' ||
  c == '*' || c == '+' || c == ',' || c == ';' || c == '=' || c == '%' || c == '@'

/-- Go `parseAuthority` success: split at the last `@`; the host must
parse and, when present, the userinfo must pass `validUserinfo` and
percent-unescaping. -/
def parseAuthorityOK (authority : List Char) : Bool :=
  match lastIndexOf '@' authority with
  | none => parseHostOK authority
  | some i =>
    parseHostOK (authority.drop (i + 1)) &&
      (authority.take i).all isUserinfoChar && (pctDecode (authority.take i)).isSome

/-- The two fields of Go's `url.URL` the program can observe: `host`
(the raw authority text, userinfo included — never read by the scanner,
kept only for the record) and the unescaped `Path`, the one field
`checkGitHub` and `checkChromeExtension` consume. -/
structure GoURL where
  host : String
  path : String
deriving DecidableEq

/-- Go `parse(u, viaRequest := false)` on the fragment-stripped part:
reject control characters; `"*"` is the special asterisk path; split off
the scheme (`none` on "missing protocol scheme"); drop the query (the
path part is everything before the first `?`, also in the ForceQuery
corner); a rootless rest under a non-empty scheme is opaque with
`Path = ""`; a rootless schemeless rest errors when its first segment
holds a `:`; `//` introduces an authority (validated host/port/userinfo)
unless the schemeless rest starts `///`; the remainder is the path,
percent-unescaped. -/
def parseNoFrag (u : List Char) : Option GoURL :=
  if u.any isCtl then none
  else if u == ['*'] then some ⟨"", "*"⟩
  else
    match getSchemeAux u u [] true with
    | none => none
    | some (scheme, afterScheme) =>
      let rest := afterScheme.takeWhile (· ≠ '?')
      if rest.head? != some '/' then
        if scheme != [] then some ⟨"", ""⟩
        else if (rest.takeWhile (· ≠ '/')).contains ':' then none
        else (pctDecode rest).map (fun p => ⟨"", String.mk p⟩)
      else if rest.take 2 == ['/', '/'] && (scheme != [] || rest.take 3 != ['/', '/', '/']) then
        let afterSlashes := rest.drop 2
        let authority := afterSlashes.takeWhile (· ≠ '/')
        let rest2 := afterSlashes.drop authority.length
        if parseAuthorityOK authority then
          (pctDecode rest2).map (fun p => ⟨String.mk authority, String.mk p⟩)
        else none
      else (pctDecode rest).map (fun p => ⟨"", String.mk p⟩)

/-- Model of `url.Parse`: cut the fragment at the first `#`, parse the
rest, and when the fragment is non-empty validate its percent-escapes
(`setFragment`; a control character there is not an error because Go
checks CTL bytes only on the pre-fragment part). -/
def urlParse (s : String) : Option GoURL :=
  let cs := s.data
  let u := cs.takeWhile (· ≠ '#')
  let fragPart := cs.dropWhile (· ≠ '#')
  match parseNoFrag u with
  | none => none
  | some url =>
    match fragPart with
    | [] => some url
    | _ :: fragChars =>
      if fragChars.isEmpty then some url
      else if (pctDecode fragChars).isSome then some url
      else none

/-! ### GitHub support (src/tagrtol.go:70-127) -/

/-- The request built by `githubAPIRequest` before it is issued: GET on the
API URL, `User-Agent: Takeover-Scanner`, and `Authorization: token <tok>`
exactly when a token is configured (src/tagrtol.go:107-111). -/
def buildGitHubRequest (token api : String) : Request :=
  { method := "GET"
    url := api
    userAgent := some "Takeover-Scanner"
    authorization := if token != "" then some ("token " ++ token) else none }

/-- `githubAPIRequest(entityType, api, link)` (src/tagrtol.go:106-127).
Line 107 discards the error of `http.NewRequest` (`req, _ :=`); NewRequest
fails exactly when `url.Parse(api)` fails, and then `req` is nil and
`req.Header.Set` on line 108 panics — modelled as `none`.  Otherwise the
request is issued and the outcome mapped to a `Result`. -/
def githubAPIRequest (net : Request → NetResult) (token entityType api link : String) :
    Option Result :=
  match urlParse api with
  | none => none
  | some _ =>
    some (match net (buildGitHubRequest token api) with
      | .failure => ⟨entityType, "connection_error", link, ""⟩
      | .success resp =>
        if resp.statusCode == 404 then ⟨entityType, "not_found", link, ""⟩
        else if resp.statusCode == 200 then ⟨entityType, "exists", link, ""⟩
        else if resp.statusCode == 403 || resp.statusCode == 429 then
          ⟨entityType, "rate_limited", link, ""⟩
        else ⟨entityType, "error_" ++ toString resp.statusCode, link, ""⟩)

/-- `checkGitHub(link)` (src/tagrtol.go:71-104).  The Go code discards the
error of `url.Parse` (`parsed, _ := url.Parse(link)`) and immediately reads
`parsed.Path`; when parsing fails this dereferences a nil pointer and the
goroutine panics — modelled as `none`. -/
def checkGitHub (net : Request → NetResult) (token link : String) : Option Result :=
  match urlParse link with
  | none => none
  | some parsed =>
    let parts := goSplit (goTrimSlash parsed.path)
    if strContains link "github.io" then
      some (match httpGet net link with
        | .failure => ⟨"github_pages", "connection_error", link, ""⟩
        | .success resp =>
          if strContains resp.body "There isn\x27t a GitHub Pages site here." then
            ⟨"github_pages", "possible_takeover", link, ""⟩
          else ⟨"github_pages", "ok", link, ""⟩)
    else if strContains link "gist.github.com" && decide (2 ≤ parts.length) then
      githubAPIRequest net token "gist"
        ("https://api.github.com/gists/" ++ parts.getLastD "") link
    else if 2 ≤ parts.length then
      githubAPIRequest net token "repo"
        ("https://api.github.com/repos/" ++ parts.getD 0 "" ++ "/" ++ parts.getD 1 "") link
    else if parts.length == 1 && parts.getD 0 "" != "" then
      githubAPIRequest net token "user"
        ("https://api.github.com/users/" ++ parts.getD 0 "") link
    else some ⟨"github", "invalid_url", link, ""⟩

/-! ### Other services (src/tagrtol.go:129-243) -/

/-- `checkS3` (src/tagrtol.go:130-141). -/
def checkS3 (net : Request → NetResult) (link : String) : Result :=
  match httpGet net link with
  | .failure => ⟨"s3", "connection_error", link, ""⟩
  | .success resp =>
    if strContains resp.body "NoSuchBucket" then ⟨"s3", "possible_takeover", link, ""⟩
    else ⟨"s3", "ok", link, ""⟩

/-- `checkHeroku` (src/tagrtol.go:143-154). -/
def checkHeroku (net : Request → NetResult) (link : String) : Result :=
  match httpGet net link with
  | .failure => ⟨"heroku", "connection_error", link, ""⟩
  | .success resp =>
    if strContains resp.body "no such app" then ⟨"heroku", "possible_takeover", link, ""⟩
    else ⟨"heroku", "ok", link, ""⟩

/-- `checkVercel` (src/tagrtol.go:156-167). -/
def checkVercel (net : Request → NetResult) (link : String) : Result :=
  match httpGet net link with
  | .failure => ⟨"vercel", "connection_error", link, ""⟩
  | .success resp =>
    if strContains resp.body "Vercel" && strContains resp.body "404" then
      ⟨"vercel", "possible_takeover", link, ""⟩
    else ⟨"vercel", "ok", link, ""⟩

/-- `checkNetlify` (src/tagrtol.go:169-180). -/
def checkNetlify (net : Request → NetResult) (link : String) : Result :=
  match httpGet net link with
  | .failure => ⟨"netlify", "connection_error", link, ""⟩
  | .success resp =>
    if strContains resp.body "Not Found" && strContains resp.body "netlify" then
      ⟨"netlify", "possible_takeover", link, ""⟩
    else ⟨"netlify", "ok", link, ""⟩

/-- `checkChromeExtension` (src/tagrtol.go:182-204).  Unlike `checkGitHub`
this prober checks the `url.Parse` error and degrades to `invalid_url`. -/
def checkChromeExtension (net : Request → NetResult) (link : String) : Result :=
  match urlParse link with
  | none => ⟨"chrome_ext", "invalid_url", link, ""⟩
  | some u =>
    let parts := goSplit (goTrimSlash u.path)
    if parts.length < 2 then ⟨"chrome_ext", "invalid_url", link, ""⟩
    else
      let extID := parts.getLastD ""
      let checkURL := "https://chrome.google.com/webstore/detail/" ++ extID
      match httpGet net checkURL with
      | .failure => ⟨"chrome_ext", "connection_error", link, ""⟩
      | .success resp =>
        if strContains resp.body "Item not found" || strContains resp.body "404" then
          ⟨"chrome_ext", "not_found", link, ""⟩
        else ⟨"chrome_ext", "exists", link, ""⟩

/-- `checkWix` (src/tagrtol.go:206-217). -/
def checkWix (net : Request → NetResult) (link : String) : Result :=
  match httpGet net link with
  | .failure => ⟨"wix", "connection_error", link, ""⟩
  | .success resp =>
    if strContains resp.body "domain isn’t connected to a website" ||
        strContains resp.body "Looks like this domain" then
      ⟨"wix", "possible_takeover", link, ""⟩
    else ⟨"wix", "ok", link, ""⟩

/-- `checkTumblr` (src/tagrtol.go:219-230). -/
def checkTumblr (net : Request → NetResult) (link : String) : Result :=
  match httpGet net link with
  | .failure => ⟨"tumblr", "connection_error", link, ""⟩
  | .success resp =>
    if strContains resp.body "There\x27s nothing here" || resp.statusCode == 404 then
      ⟨"tumblr", "possible_takeover", link, ""⟩
    else ⟨"tumblr", "ok", link, ""⟩

/-- `checkShopify` (src/tagrtol.go:232-243). -/
def checkShopify (net : Request → NetResult) (link : String) : Result :=
  match httpGet net link with
  | .failure => ⟨"shopify", "connection_error", link, ""⟩
  | .success resp =>
    if strContains resp.body "store is unavailable" ||
        strContains resp.body "This store is unavailable" then
      ⟨"shopify", "possible_takeover", link, ""⟩
    else ⟨"shopify", "ok", link, ""⟩

/-! ### Dispatcher (src/tagrtol.go:246-269) -/

/-- `detectService(link)`: the ordered match table.  The result is
`Option Result` because the GitHub branch can panic (see `checkGitHub`);
every other branch always produces a `Result`. -/
def detectService (net : Request → NetResult) (token link : String) : Option Result :=
  if strContains link "github.com" || strContains link "github.io" ||
      strContains link "gist.github.com" then
    checkGitHub net token link
  else if strContains link ".s3.amazonaws.com" then some (checkS3 net link)
  else if strContains link "herokuapp.com" then some (checkHeroku net link)
  else if strContains link ".vercel.app" then some (checkVercel net link)
  else if strContains link ".netlify.app" then some (checkNetlify net link)
  else if strContains link "chrome.google.com/webstore/detail/" then
    some (checkChromeExtension net link)
  else if strContains link ".wixsite.com" then some (checkWix net link)
  else if strContains link ".tumblr.com" then some (checkTumblr net link)
  else if strContains link ".myshopify.com" then some (checkShopify net link)
  else some ⟨"unknown", "skipped", link, ""⟩

/-! ### Link extraction and the worker loop (src/tagrtol.go:32-62, 272-294)

The HTML tokenizer loop (src/tagrtol.go:40-60) is driven by the external
`golang.org/x/net/html` package; it is abstracted as an oracle
`tokenize : site → body → links`, the "extract absolute outbound links
from a page" collaborator of the design.  What `extractLinks` itself
contributes — returning the empty list when the page fetch fails at the
transport level — is embedded from the source. -/

/-- `extractLinks(site)` (src/tagrtol.go:32-37 plus the abstracted
tokenizer loop). -/
def extractLinks (net : Request → NetResult) (tokenize : String → String → List String)
    (site : String) : List String :=
  match httpGet net site with
  | .failure => []
  | .success resp => tokenize site resp.body

/-- One iteration of the worker's inner loop (src/tagrtol.go:278-279):
probe the link and stamp the originating site on the verdict. -/
def probeLink (net : Request → NetResult) (token site link : String) : Option Result :=
  (detectService net token link).map (fun r => { r with SourcePage := site })

/-- All verdicts one worker emits for one site (src/tagrtol.go:274-292):
extract the links, probe each, and keep only the non-`unknown` ones
(`if r.Type != "unknown"` guards the send on the results channel).
`none` when probing some link panics. -/
def siteVerdicts (net : Request → NetResult) (tokenize : String → String → List String)
    (token site : String) : Option (List Result) := do
  let rs ← (extractLinks net tokenize site).mapM (probeLink net token site)
  pure (rs.filter (fun r => r.Type' != "unknown"))

/-- The verdicts produced for a queue of sites processed in order (one
worker's whole run, or the whole scheduler at concurrency 1). -/
def runVerdicts (net : Request → NetResult) (tokenize : String → String → List String)
    (token : String) : List String → Option (List Result)
  | [] => some []
  | site :: rest =>
    match siteVerdicts net tokenize token site, runVerdicts net tokenize token rest with
    | some v, some vs => some (v ++ vs)
    | _, _ => none

/-- A worker pool's combined output for an assignment of site queues to
workers (src/tagrtol.go:314-336: each site is claimed by exactly one
worker; every emitted verdict reaches the results channel exactly once).
The Report the aggregator collects is an interleaving — hence a
permutation — of this concatenation of the per-worker streams. -/
def poolRun (net : Request → NetResult) (tokenize : String → String → List String)
    (token : String) : List (List String) → Option (List Result)
  | [] => some []
  | q :: qs =>
    match runVerdicts net tokenize token q, poolRun net tokenize token qs with
    | some v, some vs => some (v ++ vs)
    | _, _ => none

/-! ### The pure classification function -/

/-- The ServiceKind `checkGitHub` assigns, read off the link text alone
(host patterns, path-segment count, and whether the API URL built from
the segments is itself parseable); `none` where `checkGitHub` panics
(unparseable link, or an API-routed segment whose constructed metadata
URL fails `http.NewRequest`). -/
def classifyGitHub (link : String) : Option String :=
  match urlParse link with
  | none => none
  | some parsed =>
    let parts := goSplit (goTrimSlash parsed.path)
    if strContains link "github.io" then some "github_pages"
    else if strContains link "gist.github.com" && decide (2 ≤ parts.length) then
      (urlParse ("https://api.github.com/gists/" ++ parts.getLastD "")).map (fun _ => "gist")
    else if 2 ≤ parts.length then
      (urlParse ("https://api.github.com/repos/" ++ parts.getD 0 "" ++ "/" ++
        parts.getD 1 "")).map (fun _ => "repo")
    else if parts.length == 1 && parts.getD 0 "" != "" then
      (urlParse ("https://api.github.com/users/" ++ parts.getD 0 "")).map (fun _ => "user")
    else some "github"

/-- `classify(link)`: the ServiceKind the dispatcher assigns, as a pure
function of the link text — the match table of `detectService` with the
network stripped out. -/
def classify (link : String) : Option String :=
  if strContains link "github.com" || strContains link "github.io" ||
      strContains link "gist.github.com" then
    classifyGitHub link
  else if strContains link ".s3.amazonaws.com" then some "s3"
  else if strContains link "herokuapp.com" then some "heroku"
  else if strContains link ".vercel.app" then some "vercel"
  else if strContains link ".netlify.app" then some "netlify"
  else if strContains link "chrome.google.com/webstore/detail/" then some "chrome_ext"
  else if strContains link ".wixsite.com" then some "wix"
  else if strContains link ".tumblr.com" then some "tumblr"
  else if strContains link ".myshopify.com" then some "shopify"
  else some "unknown"

/-- The StatusCode mapping of the design document for metadata-API
probes (spec §4.2, §7), written from the spec's words: 404 → not_found,
200 → exists, 403/429 → rate_limited, other codes → error_<code>,
transport failure → connection_error. -/
def specStatusCode : NetResult → String
  | .failure => "connection_error"
  | .success resp =>
    if resp.statusCode == 404 then "not_found"
    else if resp.statusCode == 200 then "exists"
    else if resp.statusCode == 403 || resp.statusCode == 429 then "rate_limited"
    else "error_" ++ toString resp.statusCode

/-! ### Concrete oracles used in closed statements -/

/-- A network where every request fails at the transport level. -/
def netFail : Request → NetResult := fun _ => .failure

/-- A tokenizer oracle finding no links on any page. -/
def tokenizeNone : String → String → List String := fun _ _ => []

/-- Lists of verdicts agree as multisets, with a panic (`none`) only
matching a panic. -/
def optPerm : Option (List Result) → Option (List Result) → Prop
  | none, none => True
  | some x, some y => x.Perm y
  | _, _ => False

/-! ### Helper lemmas -/

theorem githubAPIRequest_eq (net : Request → NetResult) (token et api link : String) :
    githubAPIRequest net token et api link =
      (urlParse api).map (fun _ =>
        (⟨et, specStatusCode (net (buildGitHubRequest token api)), link, ""⟩ : Result)) := by
  unfold githubAPIRequest specStatusCode
  cases urlParse api with
  | none => rfl
  | some u =>
    dsimp only
    cases net (buildGitHubRequest token api) with
    | failure => rfl
    | success resp =>
      by_cases h404 : resp.statusCode == 404 <;>
        by_cases h200 : resp.statusCode == 200 <;>
          by_cases hrl : (resp.statusCode == 403 || resp.statusCode == 429) = true <;>
            simp [h404, h200, hrl]

theorem githubAPIRequest_map_type (net : Request → NetResult) (token et api link : String) :
    (githubAPIRequest net token et api link).map Result.Type' =
      (urlParse api).map (fun _ => et) := by
  rw [githubAPIRequest_eq]
  cases urlParse api <;> rfl

theorem checkS3_Type (net : Request → NetResult) (link : String) :
    (checkS3 net link).Type' = "s3" := by
  unfold checkS3
  cases httpGet net link with
  | failure => rfl
  | success resp =>
    dsimp only
    split <;> rfl

theorem checkHeroku_Type (net : Request → NetResult) (link : String) :
    (checkHeroku net link).Type' = "heroku" := by
  unfold checkHeroku
  cases httpGet net link with
  | failure => rfl
  | success resp =>
    dsimp only
    split <;> rfl

theorem checkVercel_Type (net : Request → NetResult) (link : String) :
    (checkVercel net link).Type' = "vercel" := by
  unfold checkVercel
  cases httpGet net link with
  | failure => rfl
  | success resp =>
    dsimp only
    split <;> rfl

theorem checkNetlify_Type (net : Request → NetResult) (link : String) :
    (checkNetlify net link).Type' = "netlify" := by
  unfold checkNetlify
  cases httpGet net link with
  | failure => rfl
  | success resp =>
    dsimp only
    split <;> rfl

theorem checkChromeExtension_Type (net : Request → NetResult) (link : String) :
    (checkChromeExtension net link).Type' = "chrome_ext" := by
  unfold checkChromeExtension
  cases urlParse link with
  | none => rfl
  | some u =>
    dsimp only
    split
    · rfl
    · cases httpGet net ("https://chrome.google.com/webstore/detail/" ++
        (goSplit (goTrimSlash u.path)).getLastD "") with
      | failure => rfl
      | success resp =>
        dsimp only
        split <;> rfl

theorem checkWix_Type (net : Request → NetResult) (link : String) :
    (checkWix net link).Type' = "wix" := by
  unfold checkWix
  cases httpGet net link with
  | failure => rfl
  | success resp =>
    dsimp only
    split <;> rfl

theorem checkTumblr_Type (net : Request → NetResult) (link : String) :
    (checkTumblr net link).Type' = "tumblr" := by
  unfold checkTumblr
  cases httpGet net link with
  | failure => rfl
  | success resp =>
    dsimp only
    split <;> rfl

theorem checkShopify_Type (net : Request → NetResult) (link : String) :
    (checkShopify net link).Type' = "shopify" := by
  unfold checkShopify
  cases httpGet net link with
  | failure => rfl
  | success resp =>
    dsimp only
    split <;> rfl

theorem checkGitHub_map_type (net : Request → NetResult) (token link : String) :
    (checkGitHub net token link).map Result.Type' = classifyGitHub link := by
  unfold checkGitHub classifyGitHub
  cases urlParse link with
  | none => rfl
  | some parsed =>
    dsimp only
    split
    · cases httpGet net link with
      | failure => rfl
      | success resp =>
        dsimp only
        split <;> rfl
    · split
      · exact githubAPIRequest_map_type net token "gist" _ link
      · split
        · exact githubAPIRequest_map_type net token "repo" _ link
        · split
          · exact githubAPIRequest_map_type net token "user" _ link
          · rfl

theorem detectService_map_type (net : Request → NetResult) (token link : String) :
    (detectService net token link).map Result.Type' = classify link := by
  unfold detectService classify
  split
  · exact checkGitHub_map_type net token link
  · split
    · simp [checkS3_Type]
    · split
      · simp [checkHeroku_Type]
      · split
        · simp [checkVercel_Type]
        · split
          · simp [checkNetlify_Type]
          · split
            · simp [checkChromeExtension_Type]
            · split
              · simp [checkWix_Type]
              · split
                · simp [checkTumblr_Type]
                · split
                  · simp [checkShopify_Type]
                  · rfl

theorem classifyGitHub_ne_unknown (link : String) : classifyGitHub link ≠ some "unknown" := by
  unfold classifyGitHub
  cases urlParse link with
  | none => simp
  | some parsed =>
    dsimp only
    split
    · simp
    · split
      · simp
      · split
        · simp
        · split <;> simp

theorem detectService_unknown (net : Request → NetResult) (token link : String)
    (h : classify link = some "unknown") :
    detectService net token link = some ⟨"unknown", "skipped", link, ""⟩ := by
  unfold classify at h
  unfold detectService
  split at h
  · exact absurd h (classifyGitHub_ne_unknown link)
  · repeat' split at h
    all_goals simp_all

theorem optPerm_trans {a b c : Option (List Result)}
    (h1 : optPerm a b) (h2 : optPerm b c) : optPerm a c :=
  match a, b, c, h1, h2 with
  | none, none, none, _, _ => trivial
  | some _, some _, some _, h1, h2 => h1.trans h2
  | none, some _, _, h1, _ => h1.elim
  | some _, none, _, h1, _ => h1.elim
  | none, none, some _, _, h2 => h2.elim
  | some _, some _, none, _, h2 => h2.elim

theorem runVerdicts_append (net : Request → NetResult)
    (tokenize : String → String → List String) (token : String) (xs ys : List String) :
    runVerdicts net tokenize token (xs ++ ys) =
      match runVerdicts net tokenize token xs, runVerdicts net tokenize token ys with
      | some v, some w => some (v ++ w)
      | _, _ => none := by
  induction xs with
  | nil =>
    simp only [List.nil_append]
    cases runVerdicts net tokenize token ys <;> rfl
  | cons s rest ih =>
    show runVerdicts net tokenize token (s :: (rest ++ ys)) = _
    rw [runVerdicts, ih]
    conv_rhs => rw [runVerdicts]
    cases siteVerdicts net tokenize token s <;>
      cases runVerdicts net tokenize token rest <;>
        cases runVerdicts net tokenize token ys <;>
          first
          | rfl
          | simp [List.append_assoc]

/-- A pool of workers, each draining its own queue, emits exactly the
verdicts of the concatenation of the queues. -/
theorem poolRun_eq_flatten (net : Request → NetResult)
    (tokenize : String → String → List String) (token : String) (A : List (List String)) :
    poolRun net tokenize token A = runVerdicts net tokenize token A.flatten := by
  induction A with
  | nil => rfl
  | cons q qs ih =>
    rw [poolRun, ih, List.flatten_cons, runVerdicts_append]

/-- Permuting the site list permutes the emitted verdicts (and a panic on
one side is a panic on the other). -/
theorem runVerdicts_perm (net : Request → NetResult)
    (tokenize : String → String → List String) (token : String) {l1 l2 : List String}
    (h : l1.Perm l2) :
    optPerm (runVerdicts net tokenize token l1) (runVerdicts net tokenize token l2) := by
  induction h with
  | nil => exact List.Perm.refl []
  | cons x h ih =>
    rw [runVerdicts, runVerdicts]
    cases siteVerdicts net tokenize token x with
    | none => cases runVerdicts net tokenize token _ <;> cases runVerdicts net tokenize token _ <;>
        trivial
    | some v =>
      revert ih
      cases runVerdicts net tokenize token _ <;> cases runVerdicts net tokenize token _ <;>
        intro ih
      · trivial
      · exact ih.elim
      · exact ih.elim
      · exact ih.append_left v
  | swap x y l =>
    rw [runVerdicts, runVerdicts, runVerdicts, runVerdicts]
    cases siteVerdicts net tokenize token x <;>
      cases siteVerdicts net tokenize token y <;>
        cases runVerdicts net tokenize token l <;> try trivial
    exact (List.perm_append_comm_assoc _ _ _)
  | trans h1 h2 ih1 ih2 => exact optPerm_trans ih1 ih2

theorem siteVerdicts_no_unknown (net : Request → NetResult)
    (tokenize : String → String → List String) (token site : String) (v : List Result)
    (h : siteVerdicts net tokenize token site = some v) :
    ∀ r ∈ v, r.Type' ≠ "unknown" := by
  unfold siteVerdicts at h
  cases hm : (extractLinks net tokenize site).mapM (probeLink net token site) with
  | none => rw [hm] at h; simp at h
  | some rs =>
    rw [hm] at h
    have hfe : List.filter (fun r => r.Type' != "unknown") rs = v := by
      simpa using h
    intro r hr
    rw [← hfe] at hr
    have := (List.mem_filter.mp hr).2
    simpa using this

theorem runVerdicts_no_unknown (net : Request → NetResult)
    (tokenize : String → String → List String) (token : String) (sites : List String)
    (report : List Result) (h : runVerdicts net tokenize token sites = some report) :
    ∀ r ∈ report, r.Type' ≠ "unknown" := by
  induction sites generalizing report with
  | nil =>
    rw [runVerdicts] at h
    cases h
    intro r hr
    simp at hr
  | cons s rest ih =>
    rw [runVerdicts] at h
    cases h1 : siteVerdicts net tokenize token s with
    | none => rw [h1] at h; simp at h
    | some v =>
      rw [h1] at h
      cases h2 : runVerdicts net tokenize token rest with
      | none => rw [h2] at h; simp at h
      | some vs =>
        rw [h2] at h
        cases h
        intro r hr
        rcases List.mem_append.mp hr with hl | hl
        · exact siteVerdicts_no_unknown net tokenize token s v h1 r hl
        · exact ih vs h2 r hl

/-- C3: the claimed exhaustive response→StatusCode mapping fails on the
code at the link "https://github.com/%25zz/x": its path decodes to
/%zz/x, the repo branch builds the API URL
https://api.github.com/repos/%zz/x, `http.NewRequest` rejects that URL,
and the discarded error (`req, _ :=`, src/tagrtol.go:107) leaves `req`
nil, so `req.Header.Set` panics before any request is issued — no
Verdict and no StatusCode result (first conjunct, for every oracle and
token).  Wherever the metadata request can actually be built, the
mapping is exactly as claimed: 404 → not_found, 200 → exists, 403/429 →
rate_limited, any other code → error_<code> verbatim, transport failure
→ connection_error (second conjunct, `none` exactly on the NewRequest
panic). -/
theorem C3_api_status_mapping_or_panic :
    (∀ (net : Request → NetResult) (token : String),
        detectService net token "https://github.com/%25zz/x" = none) ∧
    (∀ (net : Request → NetResult) (token entityType api link : String),
        githubAPIRequest net token entityType api link =
          (urlParse api).map (fun _ =>
            (⟨entityType, specStatusCode (net (buildGitHubRequest token api)), link, ""⟩ :
              Result))) := by
  constructor
  · intro net token
    have hc : classify "https://github.com/%25zz/x" = none := by decide
    have hmap := detectService_map_type net token "https://github.com/%25zz/x"
    rw [hc] at hmap
    exact Option.map_eq_none'.mp hmap
  · intro net token entityType api link
    exact githubAPIRequest_eq net token entityType api link

/-- C5: refuted as stated — the per-link probing path does NOT return a
Verdict for every link string.  For the link "https://github.com/%zz"
(invalid percent-escape, so `url.Parse` fails) `checkGitHub` dereferences
the nil parse result and panics, for any network oracle and any token:
the dispatch evaluates to `none` (the embedded panic) instead of a
Verdict. -/
theorem C5_unparseable_link_panics (net : Request → NetResult) (token : String) :
    detectService net token "https://github.com/%zz" = none := by
  have hc : classify "https://github.com/%zz" = none := by decide
  have hmap := detectService_map_type net token "https://github.com/%zz"
  rw [hc] at hmap
  exact Option.map_eq_none'.mp hmap

/-- C6: the ServiceKind of every produced Verdict is a pure function
`classify` of the link text alone — identical for every network oracle and
every credential, hence deterministic across evaluations — but totality
fails: on "https://github.com/%" (a code-forge link whose URL-parse
fails) classification assigns no kind at all because the prober panics. -/
theorem C6_classification_deterministic_total :
    (∀ (net : Request → NetResult) (token link : String),
        (detectService net token link).map Result.Type' = classify link) ∧
    classify "https://github.com/%" = none :=
  ⟨detectService_map_type, by decide⟩

/-- C7: two-run noninterference over the credential: against any network
whose answers ignore the authorization header, the metadata-API probe
returns the identical Verdict with and without a configured token, and
the two constructed requests differ in nothing but that header. -/
theorem C7_credential_noninterference (net : Request → NetResult)
    (hnet : ∀ (req : Request) (a : Option String),
      net { req with authorization := a } = net req)
    (t1 t2 entityType api link : String) :
    githubAPIRequest net t1 entityType api link =
      githubAPIRequest net t2 entityType api link ∧
    { buildGitHubRequest t1 api with authorization := none } =
      { buildGitHubRequest t2 api with authorization := none } := by
  have hr : net (buildGitHubRequest t1 api) = net (buildGitHubRequest t2 api) := by
    have h1 : net (buildGitHubRequest t1 api) = net (buildGitHubRequest "" api) :=
      hnet (buildGitHubRequest "" api) (if t1 != "" then some ("token " ++ t1) else none)
    have h2 : net (buildGitHubRequest t2 api) = net (buildGitHubRequest "" api) :=
      hnet (buildGitHubRequest "" api) (if t2 != "" then some ("token " ++ t2) else none)
    rw [h1, h2]
  constructor
  · rw [githubAPIRequest_eq, githubAPIRequest_eq, hr]
  · rfl

/-- C4: no Verdict with ServiceKind "unknown" ever reaches the Report
(every row of a completed run is non-unknown), and a link classified
"unknown" is never probed: its Verdict is `skipped` and is the same for
every network oracle and credential — no outbound request can influence
it. -/
theorem C4_unknown_never_probed_nor_reported (net : Request → NetResult)
    (tokenize : String → String → List String) (token : String)
    (sites : List String) (report : List Result)
    (h : runVerdicts net tokenize token sites = some report) :
    (∀ r ∈ report, r.Type' ≠ "unknown") ∧
    (∀ link r, detectService net token link = some r → r.Type' = "unknown" →
      r.Status = "skipped" ∧
      ∀ (net2 : Request → NetResult) (token2 : String),
        detectService net2 token2 link = some r) := by
  constructor
  · exact runVerdicts_no_unknown net tokenize token sites report h
  · intro link r hd ht
    have hcl : classify link = some "unknown" := by
      have hmap := detectService_map_type net token link
      rw [hd] at hmap
      simp only [Option.map_some'] at hmap
      rw [ht] at hmap
      exact hmap.symm
    have hme := detectService_unknown net token link hcl
    rw [hd] at hme
    have hre : r = ⟨"unknown", "skipped", link, ""⟩ := by
      injection hme
    subst hre
    exact ⟨rfl, fun net2 token2 => detectService_unknown net2 token2 link hcl⟩

/-- C9: the multiset of Verdicts is schedule-independent: any two worker
pools (any worker counts, e.g. 1 and 50) whose queues cover the same
sites produce permutations of the same verdict list — only arrival order
in the Report can differ. -/
theorem C9_schedule_independent_verdicts (net : Request → NetResult)
    (tokenize : String → String → List String) (token : String)
    (A B : List (List String)) (h : A.flatten.Perm B.flatten) :
    optPerm (poolRun net tokenize token A) (poolRun net tokenize token B) := by
  rw [poolRun_eq_flatten, poolRun_eq_flatten]
  exact runVerdicts_perm net tokenize token h

/-- C10: when fetching a site's own page fails at the transport level,
link extraction returns the empty list, the worker contributes zero
Verdicts for that site (no connection_error row records the failed site
fetch), and the run continues exactly as if the site were not queued. -/
theorem C10_site_fetch_failure_contributes_nothing (net : Request → NetResult)
    (tokenize : String → String → List String) (token site : String)
    (hfail : httpGet net site = NetResult.failure) :
    extractLinks net tokenize site = [] ∧
    siteVerdicts net tokenize token site = some [] ∧
    ∀ pre post, runVerdicts net tokenize token (pre ++ site :: post) =
      runVerdicts net tokenize token (pre ++ post) := by
  have hext : extractLinks net tokenize site = [] := by
    unfold extractLinks
    rw [hfail]
  have hsv : siteVerdicts net tokenize token site = some [] := by
    unfold siteVerdicts
    rw [hext]
    rfl
  refine ⟨hext, hsv, ?_⟩
  intro pre post
  rw [runVerdicts_append, runVerdicts_append]
  have hstep : runVerdicts net tokenize token (site :: post) =
      runVerdicts net tokenize token post := by
    rw [runVerdicts, hsv]
    cases runVerdicts net tokenize token post <;> rfl
  rw [hstep]

/-- Witness for C4 at a one-site run whose page fetch fails (empty
report). -/
theorem C4_unknown_never_probed_nor_reported_witness :
    (∀ r ∈ ([] : List Result), r.Type' ≠ "unknown") ∧
    (∀ link r, detectService netFail "" link = some r → r.Type' = "unknown" →
      r.Status = "skipped" ∧
      ∀ (net2 : Request → NetResult) (token2 : String),
        detectService net2 token2 link = some r) :=
  C4_unknown_never_probed_nor_reported netFail tokenizeNone "" ["https://site.example"] [] rfl

/-- Witness for C7: a network that ignores headers, probed with and
without a token. -/
theorem C7_credential_noninterference_witness :
    githubAPIRequest netFail "" "gist" "https://api.github.com/gists/x" "l" =
      githubAPIRequest netFail "tok" "gist" "https://api.github.com/gists/x" "l" ∧
    { buildGitHubRequest "" "https://api.github.com/gists/x" with authorization := none } =
      { buildGitHubRequest "tok" "https://api.github.com/gists/x" with authorization := none } :=
  C7_credential_noninterference netFail (fun _ _ => rfl) "" "tok" "gist"
    "https://api.github.com/gists/x" "l"

/-- Witness for C9: one worker with both sites versus two workers with
one site each. -/
theorem C9_schedule_independent_verdicts_witness :
    optPerm (poolRun netFail tokenizeNone "" [["a", "b"]])
      (poolRun netFail tokenizeNone "" [["b"], ["a"]]) :=
  C9_schedule_independent_verdicts netFail tokenizeNone "" [["a", "b"]] [["b"], ["a"]]
    (by decide)

/-- Witness for C10 at a site whose fetch fails against `netFail`. -/
theorem C10_site_fetch_failure_contributes_nothing_witness :
    extractLinks netFail tokenizeNone "https://site.example" = [] ∧
    siteVerdicts netFail tokenizeNone "" "https://site.example" = some [] ∧
    ∀ pre post, runVerdicts netFail tokenizeNone "" (pre ++ "https://site.example" :: post) =
      runVerdicts netFail tokenizeNone "" (pre ++ post) :=
  C10_site_fetch_failure_contributes_nothing netFail tokenizeNone "" "https://site.example" rfl

end Tagrtol
